import Mathlib

/-!
Verification of the BeoSound 5c event router, source registry, volume
adapters, transport and CD playback engine, as implemented in
`src/services/router.py`, `src/services/lib/volume_adapters/beolab5.py`,
`src/services/lib/transport.py` and `src/services/sources/cd.py`.

The Python code is shallowly embedded: every stateful handler becomes a
pure function from an explicit state value to a new state together with a
list of externally visible effects (HTTP forwards, UI broadcasts, adapter
writes).  Volume values are Python floats, but every operation the
verified paths perform on them (adding an integer step, `min`, `max`,
comparison) is exact, and all values involved are integral, so volumes
are embedded as exact integers.  A raised Python exception is embedded as
`Except.error`.
-/

namespace Beo

/-- Python's two-argument `min`. -/
def pyMin (a b : ℤ) : ℤ := if a < b then a else b

/-- Python's two-argument `max`. -/
def pyMax (a b : ℤ) : ℤ := if a < b then b else a

/-- `str.upper()` on one character; source ids are plain ASCII. -/
def pyUpperChar (c : Char) : Char :=
  if 'a' ≤ c ∧ c ≤ 'z' then Char.ofNat (c.toNat - 32) else c

/-- `str.upper()` for the ASCII source ids the router handles. -/
def pyUpper (s : String) : String := ⟨s.data.map pyUpperChar⟩

/-- Equality of embedded Python results is decidable. -/
instance {ε α : Type} [DecidableEq ε] [DecidableEq α] :
    DecidableEq (Except ε α) := fun a b =>
  match a, b with
  | .ok x, .ok y =>
      if h : x = y then isTrue (by rw [h])
      else isFalse (fun he => h (Except.ok.inj he))
  | .error x, .error y =>
      if h : x = y then isTrue (by rw [h])
      else isFalse (fun he => h (Except.error.inj he))
  | .ok _, .error _ => isFalse (fun he => Except.noConfusion he)
  | .error _, .ok _ => isFalse (fun he => Except.noConfusion he)

/-- Whether an embedded call returned normally (did not raise). -/
def exceptIsOk {ε α : Type} : Except ε α → Bool
  | .ok _ => true
  | .error _ => false

/-- An action event as read by `EventRouter.route_event`: the router only
inspects `payload.get("action", "")` and `payload.get("device_type", "")`;
the payload itself is forwarded verbatim, which the embedding models by
carrying the same `Payload` value in the forward effect. -/
structure Payload where
  action : String
  deviceType : String
  deriving DecidableEq, Repr

/-- Externally visible side effects of the router and registry, one
constructor per outbound call site in `router.py`. -/
inductive Effect where
  /-- `_forward_to_source`: HTTP POST of the raw payload to a source's
  `command_url` (router.py lines 483-488). -/
  | forwardPost (url : String) (p : Payload)
  /-- `_forward_to_source` with an empty `command_url`: warning logged,
  nothing sent (router.py lines 479-481). -/
  | forwardSkipped (id : String)
  /-- `_broadcast("menu_item", {action:"show", ...})`. -/
  | menuItemShow (preset : String) (path : String)
  /-- `_broadcast("menu_item", {action:"add", ...})` with the optional
  `after` anchor computed by `_get_after`. -/
  | menuItemAdd (preset : String) (after : Option String)
  /-- `_broadcast("menu_item", {action:"hide", ...})`. -/
  | menuItemHide (preset : String) (path : String)
  /-- `_broadcast("menu_item", {action:"remove", ...})`. -/
  | menuItemRemove (preset : String)
  /-- `_broadcast("source_change", ...)` with the new active source id,
  display name and player kind (all `none` on deactivation). -/
  | sourceChange (active : Option String) (name : Option String) (player : Option String)
  /-- `_broadcast("navigate", {page})`. -/
  | navigateTo (page : String)
  /-- `volume adapter power_on()`. -/
  | powerOn
  /-- `volume adapter power_off()`. -/
  | powerOff
  /-- `volume adapter set_volume(v)` (the adapter itself debounces). -/
  | adapterSetVolume (v : ℤ)
  /-- `_broadcast_volume()` scheduled by `set_volume`. -/
  | broadcastVolume
  /-- `volume adapter set_balance(b)`. -/
  | setBalanceDev (b : ℤ)
  /-- `transport.send_event(payload)`. -/
  | transportSend (p : Payload)
  deriving DecidableEq, Repr

/-- A registered source, translated field by field from `class Source`
(router.py lines 77-97).  The Python `handles` set is represented as a
list; only membership and emptiness are ever consulted. -/
structure Source where
  id : String
  name : String
  command_url : String
  handles : List String
  menu_preset : String
  player : String
  state : String
  from_config : Bool
  initial_hidden : Bool
  deriving DecidableEq, Repr

/-- `Source.__init__(id, handles)`: the defaults assigned in the
constructor (router.py lines 80-89). -/
def Source.mk0 (id : String) (handles : List String) : Source :=
  { id := id
    name := pyUpper id
    command_url := ""
    handles := handles
    menu_preset := id
    player := "local"
    state := "gone"
    from_config := false
    initial_hidden := false }

/-- The source registry: the `_sources` dict as an association list in
insertion order, plus the single `_active_id` slot. -/
structure Registry where
  sources : List (String × Source)
  activeId : Option String
  deriving DecidableEq, Repr

/-- `self._sources.get(id)`. -/
def Registry.find (reg : Registry) (id : String) : Option Source :=
  (reg.sources.find? (fun kv => kv.1 = id)).map (·.2)

/-- Store a source under its id: replace the existing dict entry or append
a new one (Python dict assignment). -/
def setSource : List (String × Source) → String → Source → List (String × Source)
  | [], id, s => [(id, s)]
  | kv :: rest, id, s =>
      if kv.1 = id then (id, s) :: rest else kv :: setSource rest id s

/-- Python truthiness of an optional id string: `if self._active_id:`
treats both `None` and `""` as false. -/
def optNonempty : Option String → Option String
  | some "" => none
  | x => x

/-- `SourceRegistry.active_source` (router.py lines 107-111). -/
def Registry.activeSource (reg : Registry) : Option Source :=
  match optNonempty reg.activeId with
  | some i => reg.find i
  | none => none

/-- The optional fields of a `POST /router/source` registration payload as
extracted by `handle_source` (router.py lines 586-589); absent keys are
`none`, and `navigate`/`auto_power` are consulted only for truthiness. -/
structure RegFields where
  name : Option String := none
  command_url : Option String := none
  menu_preset : Option String := none
  player : Option String := none
  handles : Option (List String) := none
  navigate : Bool := false
  auto_power : Bool := false
  deriving DecidableEq, Repr

/-- The field updates applied by `SourceRegistry.update` to an existing or
freshly created source (router.py lines 139-149): `handles` from the
payload are applied only when the source's current handles set is empty. -/
def applyFields (s : Source) (f : RegFields) : Source :=
  let s := match f.name with
    | some n => { s with name := n }
    | none => s
  let s := match f.command_url with
    | some u => { s with command_url := u }
    | none => s
  let s := match f.menu_preset with
    | some m => { s with menu_preset := m }
    | none => s
  let s := match f.player with
    | some p => { s with player := p }
    | none => s
  match f.handles with
  | some hs => if s.handles.isEmpty then { s with handles := hs } else s
  | none => s

/-- One entry of the parsed menu order, keeping the config values that
`_parse_menu` and `get_menu` consult. -/
structure MenuEntry where
  id : String
  title : String
  url : Option String := none
  hidden : Bool := false
  deriving DecidableEq, Repr

/-- `EventRouter._get_after`: the id of the menu entry preceding
`source_id` in the config order (router.py lines 509-520). -/
def getAfterAux : Option String → List MenuEntry → String → Option String
  | _, [], _ => none
  | prev, e :: rest, sid =>
      if e.id = sid then prev else getAfterAux (some e.id) rest sid

/-- See `getAfterAux`. -/
def getAfter (order : List MenuEntry) (sid : String) : Option String :=
  getAfterAux none order sid

/-- Result of `SourceRegistry.update`: the new registry, the `actions`
list the Python function returns, and the outbound effects. -/
structure UpdateResult where
  registry : Registry
  actions : List String
  effects : List Effect
  deriving Repr

/-- `EventRouter._forward_to_source` (router.py lines 477-490): posts the
raw payload to the source's `command_url`, or only logs when the source
has no url. -/
def forwardToSource (s : Source) (p : Payload) : List Effect :=
  if s.command_url = "" then [Effect.forwardSkipped s.id]
  else [Effect.forwardPost s.command_url p]

/-- The `{"action": "stop"}` body sent to the previously active source. -/
def stopPayload : Payload := { action := "stop", deviceType := "" }

/-- `SourceRegistry.update` (router.py lines 126-247), translated branch
by branch.  `volumeIsOn` is the value the `await router._volume.is_on()`
call in the auto-power check would return; the adapter object itself is
always present (`EventRouter.start` always creates one). -/
def registryUpdate (menuOrder : List MenuEntry) (volumeIsOn : Bool)
    (reg : Registry) (id : String) (state : String) (f : RegFields) :
    UpdateResult :=
  let origLookup := reg.find id
  let wasNew : Bool := match origLookup with
    | none => true
    | some s => decide (s.state = "gone")
  let wasActive : Bool := decide (reg.activeId = some id)
  -- create if unknown, then apply payload fields, then set the new state
  let s0 := match origLookup with
    | some s => s
    | none => Source.mk0 id (f.handles.getD [])
  let s2 : Source := { applyFields s0 f with state := state }
  -- the branch ladder on the new state
  let branch : Option String × List String × List Effect :=
    if state = "available" ∧ wasNew then
      if s2.from_config then
        if s2.initial_hidden then
          (reg.activeId, ["show_menu_item"],
           [Effect.menuItemShow s2.menu_preset ("menu/" ++ id)])
        else (reg.activeId, [], [])
      else
        (reg.activeId, ["add_menu_item"],
         [Effect.menuItemAdd s2.menu_preset ((getAfter menuOrder id).map ("menu/" ++ ·))])
    else if state = "playing" then
      let base : Option String × List String × List Effect :=
        if ¬ (reg.activeId = some id) then
          let prev := match optNonempty reg.activeId with
            | some pid => reg.find pid
            | none => none
          let stopEffs := match prev with
            | some pv =>
                if (pv.state = "playing" ∨ pv.state = "paused") ∧ ¬ (pv.command_url = "")
                then forwardToSource pv stopPayload
                else []
            | none => []
          (some id, ["source_change"],
           stopEffs ++ [Effect.sourceChange (some id) (some s2.name) (some s2.player)])
        else (reg.activeId, [], [])
      let powerEffs := if f.auto_power ∧ ¬ volumeIsOn then [Effect.powerOn] else []
      (base.1, base.2.1, base.2.2 ++ powerEffs)
    else if state = "paused" then
      if ¬ (reg.activeId = some id) then
        (some id, ["source_change"],
         [Effect.sourceChange (some id) (some s2.name) (some s2.player)])
      else (reg.activeId, [], [])
    else if state = "available" ∧ wasActive then
      (none, ["source_change_clear"], [Effect.sourceChange none none none])
    else if state = "gone" then
      let baseG : Option String × List String × List Effect :=
        if wasActive then
          (none, ["source_change_clear"], [Effect.sourceChange none none none])
        else (reg.activeId, [], [])
      let menuG : List String × List Effect :=
        if s2.from_config then
          if s2.initial_hidden then
            (["hide_menu_item"], [Effect.menuItemHide s2.menu_preset ("menu/" ++ id)])
          else ([], [])
        else (["remove_menu_item"], [Effect.menuItemRemove s2.menu_preset])
      (baseG.1, baseG.2.1 ++ menuG.1, baseG.2.2 ++ menuG.2)
    else (reg.activeId, [], [])
  -- optional navigate broadcast (router.py lines 242-245)
  let nav : List String × List Effect :=
    if f.navigate ∧ (state = "playing" ∨ state = "available") then
      (["navigate:menu/" ++ id], [Effect.navigateTo ("menu/" ++ id)])
    else ([], [])
  { registry := { sources := setSource reg.sources id s2, activeId := branch.1 }
    actions := branch.2.1 ++ nav.1
    effects := branch.2.2 ++ nav.2 }

/-! ## Menu configuration and `GET /router/menu` -/

/-- `STATIC_VIEWS` (router.py line 50): built-in views that are not
dynamic sources. -/
def staticViews : List String := ["showing", "system", "scenes", "playing"]

/-- The ten digit action names unioned into several default handle sets
(router.py line 53). -/
def digitActions : List String :=
  ["0", "1", "2", "3", "4", "5", "6", "7", "8", "9"]

/-- `DEFAULT_SOURCE_HANDLES` (router.py lines 54-63): the handles a source
gets when pre-created from config, keyed by source id; unknown ids get
the empty set. -/
def defaultSourceHandles (id : String) : List String :=
  if id = "cd" then
    ["play", "pause", "next", "prev", "stop", "go", "left", "right",
     "up", "down", "info"] ++ digitActions
  else if id = "spotify" then
    ["play", "pause", "next", "prev", "stop", "go", "left", "right",
     "up", "down"] ++ digitActions
  else if id = "usb" then
    ["play", "pause", "next", "prev", "stop", "go", "left", "right",
     "up", "down"]
  else if id = "demo" then
    ["play", "pause", "next", "prev", "stop", "go"]
  else if id = "news" then
    ["go", "left", "right", "up", "down"]
  else []

/-- One value of the `menu` section of config.json: either a bare id
string or an object with optional `id`, `hidden` and `url` keys. -/
inductive MenuCfgValue where
  | str (v : String)
  | obj (id : Option String) (hidden : Bool) (url : Option String)
  deriving DecidableEq, Repr

/-- The entry-building loop of `EventRouter._parse_menu` (router.py lines
311-319): derive each entry's id and keep the config bits that matter
(`hidden`, `url`). -/
def parseMenuEntries (cfg : List (String × MenuCfgValue)) : List MenuEntry :=
  cfg.map (fun tv =>
    match tv.2 with
    | .str v => { id := v, title := tv.1 }
    | .obj oid hidden url =>
        { id := oid.getD ((tv.1.toLower).replace " " "_")
          title := tv.1, url := url, hidden := hidden })

/-- The source pre-creation loop of `_parse_menu` (router.py lines
322-329): every non-webpage, non-static-view entry yields a config source
with the default handles, `from_config = true` and `initial_hidden` from
config. -/
def parseMenuSources (entries : List MenuEntry) : List (String × Source) :=
  (entries.filter (fun e => e.url = none ∧ e.id ∉ staticViews)).map
    (fun e =>
      (e.id,
       { Source.mk0 e.id (defaultSourceHandles e.id) with
           from_config := true, initial_hidden := e.hidden }))

/-- `EventRouter._parse_menu` as a whole: the ordered menu plus the
registry pre-populated with the config sources and no active source. -/
def parseMenu (cfg : List (String × MenuCfgValue)) :
    List MenuEntry × Registry :=
  let entries := parseMenuEntries cfg
  (entries, { sources := parseMenuSources entries, activeId := none })

/-- One item of the `GET /router/menu` response (router.py lines
391-410): a static view, a webpage, or a dynamic source item built by
`Source.to_menu_item` with the config title; `hidden` is the flag set for
an `initial_hidden` source whose state is `gone`. -/
structure MenuItem where
  id : String
  title : String
  itemType : Option String := none
  url : Option String := none
  preset : Option String := none
  dynamic : Bool := false
  hidden : Bool := false
  deriving DecidableEq, Repr

/-- `EventRouter.get_menu`'s items loop (router.py lines 390-410),
processing the configured order entry by entry: webpage entries and
static views are always shown; a source entry is rendered from the
registry record via `to_menu_item` with the config title, and is flagged
`hidden` when the source is `initial_hidden` and currently `gone`. -/
def getMenuItems (order : List MenuEntry) (reg : Registry) : List MenuItem :=
  match order with
  | [] => []
  | e :: rest =>
      match e.url with
      | some u =>
          { id := e.id, title := e.title, itemType := some "webpage", url := some u } ::
            getMenuItems rest reg
      | none =>
          if e.id ∈ staticViews then
            { id := e.id, title := e.title } :: getMenuItems rest reg
          else
            match reg.find e.id with
            | some s =>
                { id := s.id, title := e.title, preset := some s.menu_preset,
                  dynamic := true,
                  hidden := s.initial_hidden ∧ s.state = "gone" } ::
                  getMenuItems rest reg
            | none => getMenuItems rest reg

/-- The full `GET /router/menu` response (router.py lines 412-417). -/
structure MenuState where
  items : List MenuItem
  activeSourceId : Option String
  activePlayer : Option String
  deriving DecidableEq, Repr

/-- `EventRouter.get_menu` (router.py lines 381-417). -/
def getMenu (order : List MenuEntry) (reg : Registry) : MenuState :=
  { items := getMenuItems order reg
    activeSourceId := reg.activeId
    activePlayer := (reg.activeSource).map (·.player) }

/-- The ids of the items in a menu response. -/
def menuItemIds (m : MenuState) : List String := m.items.map (·.id)

/-! ## Volume adapters and `EventRouter.route_event` -/

/-- The adapter classes selectable by `create_volume_adapter`
(`volume_adapters/__init__.py`); `hdmi` and `spdif` are backed by the
shared ALSA class in `digital_out.py`. -/
inductive AdapterKind where
  | beolab5 | sonos | bluesound | powerlink | c4amp | digitalOut | rca
  deriving DecidableEq, Repr

/-- Whether the adapter class defines `is_on_cached`: only
`BeoLab5Volume` does (beolab5.py line 119); the base class
`VolumeAdapter` (base.py) does not declare it, so calling it on any other
adapter raises `AttributeError`. -/
def hasIsOnCached : AdapterKind → Bool
  | .beolab5 => true
  | _ => false

/-- The slice of adapter state `route_event` consults synchronously: the
class and, for BeoLab 5, the cached power state `_power_cache`
(`None` until a power call or `is_on()` refresh). -/
structure AdapterInfo where
  kind : AdapterKind
  powerCache : Option Bool := none
  deriving DecidableEq, Repr

/-- The router's mutable fields read and written by `route_event`,
`set_volume` and the status handler (router.py lines 282-294).  The
adapter is always present after `EventRouter.start`. -/
structure RouterState where
  registry : Registry
  volume : ℤ
  balance : ℤ
  volumeStep : ℤ
  activeView : Option String := none
  localButtonViews : List String := ["menu/system"]
  adapter : AdapterInfo
  deriving DecidableEq, Repr

/-- `EventRouter.set_volume` (router.py lines 492-497): clamp to
`[0, 100]`, optionally schedule the UI broadcast, then hand the clamped
value to the adapter (which debounces internally). -/
def routerSetVolume (st : RouterState) (v : ℤ) (broadcast : Bool) :
    RouterState × List Effect :=
  let vol := pyMax 0 (pyMin 100 v)
  ({ st with volume := vol },
   (if broadcast then [Effect.broadcastVolume] else []) ++
     [Effect.adapterSetVolume vol])

/-- `self.active_view in self._local_button_views` (router.py line 467):
`None` is never a member. -/
def viewSuppressed (st : RouterState) : Bool :=
  match st.activeView with
  | some v => st.localButtonViews.contains v
  | none => false

/-- Steps 4-6 of `EventRouter.route_event` (router.py lines 438-475):
volume keys, balance keys, the power-off fall-through, local-view button
suppression, and the transport fallback.  The `volup` branch calls
`self._volume.is_on_cached()`, which raises `AttributeError` on every
adapter class except `BeoLab5Volume`; the raised exception is the
`Except.error` result. -/
def routeEventTail2 (st : RouterState) (p : Payload) :
    Except String (RouterState × List Effect) :=
  if (p.action = "volup" ∨ p.action = "voldown") ∧ p.deviceType = "Audio" then
    let delta := if p.action = "volup" then st.volumeStep else -st.volumeStep
    let newVol := st.volume + delta
    if p.action = "volup" ∧ ¬ hasIsOnCached st.adapter.kind then
      .error "AttributeError: volume adapter has no attribute is_on_cached"
    else
      let powerEffs :=
        if p.action = "volup" ∧ st.adapter.powerCache = some false then
          [Effect.powerOn]
        else []
      let sv := routerSetVolume st (pyMax 0 (pyMin 100 newVol)) true
      .ok (sv.1, powerEffs ++ sv.2)
  else if (p.action = "chup" ∨ p.action = "chdown") ∧ p.deviceType = "Audio" then
    let delta : ℤ := if p.action = "chup" then 1 else -1
    let newBal := pyMax (-20) (pyMin 20 (st.balance + delta))
    .ok ({ st with balance := newBal }, [Effect.setBalanceDev newBal])
  else
    let offEffs :=
      if p.action = "off" ∧ p.deviceType = "Audio" then [Effect.powerOff] else []
    if viewSuppressed st ∧ p.action ∈ ["go", "left", "right", "up", "down"] then
      .ok (st, offEffs)
    else
      .ok (st, offEffs ++ [Effect.transportSend p])

/-- Step 2 of `route_event` (router.py lines 432-436): an action naming a
registered, not-gone source with a command url is forwarded to it. -/
def routeEventTail (st : RouterState) (p : Payload) :
    Except String (RouterState × List Effect) :=
  match st.registry.find p.action with
  | some s =>
      if ¬ (s.state = "gone") ∧ ¬ (s.command_url = "") then
        .ok (st, forwardToSource s p)
      else routeEventTail2 st p
  | none => routeEventTail2 st p

/-- `EventRouter.route_event` (router.py lines 419-475).  Step 1: an
Audio-mode action in the active source's handles while that source is
playing or paused is forwarded to it and routing stops. -/
def routeEvent (st : RouterState) (p : Payload) :
    Except String (RouterState × List Effect) :=
  match st.registry.activeSource with
  | some a =>
      if p.deviceType = "Audio" ∧ (a.state = "playing" ∨ a.state = "paused") ∧
          p.action ∈ a.handles then
        .ok (st, forwardToSource a p)
      else routeEventTail st p
  | none => routeEventTail st p

/-- `handle_event` (router.py lines 559-567): on a well-formed JSON body
the router awaits `route_event` and replies `{status:"ok"}`; an exception
escaping `route_event` is not caught, so aiohttp turns it into an HTTP
500 error response (the `Except.error` case). -/
def handleEvent (st : RouterState) (p : Payload) :
    Except String (RouterState × List Effect × String) :=
  match routeEvent st p with
  | .ok (st2, effs) => .ok (st2, effs, "ok")
  | .error e => .error e

/-! ## The BeoLab 5 adapter's debounced volume writes (beolab5.py)

`set_volume` caps the requested value at `_max_volume`, stashes it in
`_pending_volume`, cancels any pending `call_later` timer and schedules a
fresh one; only the timer callback flushes the pending value to the
device.  A cancelled `asyncio.TimerHandle` never runs its callback, so
each scheduled timer is tagged with a generation number and an elapsing
timer flushes only when its generation is still the live one. -/

/-- The debounce state of `BeoLab5Volume` (beolab5.py lines 18-32). -/
structure BeoState where
  maxVolume : ℤ
  pendingVolume : Option ℤ := none
  /-- generation of the live (not yet cancelled, not yet fired) timer -/
  timerGen : Option ℕ := none
  nextGen : ℕ := 0
  lastVolume : ℤ := 0
  deriving DecidableEq, Repr

/-- `BeoLab5Volume.set_volume` (beolab5.py lines 36-48): cap, remember as
both `_last_volume` and `_pending_volume`, cancel the old timer and
schedule a new flush. -/
def beoSetVolume (s : BeoState) (v : ℤ) : BeoState :=
  let capped := pyMin v s.maxVolume
  { s with lastVolume := capped
           pendingVolume := some capped
           timerGen := some s.nextGen
           nextGen := s.nextGen + 1 }

/-- `BeoLab5Volume._flush` (beolab5.py lines 141-157): send the pending
value (if any) and clear the debounce state.  Returns the list of device
writes the call performs. -/
def beoFlush (s : BeoState) : BeoState × List ℤ :=
  match s.pendingVolume with
  | none => (s, [])
  | some vol =>
      ({ s with pendingVolume := none, timerGen := none, lastVolume := vol },
       [vol])

/-- A point on the adapter's timeline: a `set_volume` call, or the moment
a previously scheduled timer comes due (a cancelled timer does nothing). -/
inductive BeoEvent where
  | set (v : ℤ)
  | elapse (gen : ℕ)
  deriving DecidableEq, Repr

/-- One timeline step; device writes only happen when a still-live timer
elapses and flushes. -/
def beoStep (s : BeoState) : BeoEvent → BeoState × List ℤ
  | .set v => (beoSetVolume s v, [])
  | .elapse g => if s.timerGen = some g then beoFlush s else (s, [])

/-- Run a timeline, collecting every device write in order. -/
def beoRun (s : BeoState) : List BeoEvent → BeoState × List ℤ
  | [] => (s, [])
  | e :: rest =>
      let (s1, w1) := beoStep s e
      let (s2, w2) := beoRun s1 rest
      (s2, w1 ++ w2)

/-! ## CD playback engine: pending-seek discipline (cd.py) -/

/-- Effects emitted by the CD playback engine while handling seeks and
chapter events. -/
inductive CDEffect where
  /-- `_send_ipc({'command': ['set_property', 'chapter', n]})` -/
  | ipcSetChapter (n : ℕ)
  /-- the `_on_track_change` callback -/
  | trackChangeCb
  /-- the `_on_disc_end` callback -/
  | discEndCb
  /-- `stop()`: terminate mpv and clean up IPC -/
  | stopMpv
  deriving DecidableEq, Repr

/-- The track-navigation slice of `CDPlayer`'s state (cd.py lines
278-299).  `repeatMode` embeds the Python attribute `repeat`. -/
structure CDPlayerState where
  currentTrack : ℕ
  totalTracks : ℕ
  state : String := "stopped"
  shuffle : Bool := false
  repeatMode : Bool := false
  playOrder : List ℕ := []
  pendingTrack : Option ℕ := none
  deriving DecidableEq, Repr

/-- `CDPlayer._seek_track` (cd.py lines 479-483): set `_pending_track`
*and* `current_track` to the target, then ask mpv for chapter
`track_num - 1`. -/
def seekTrack (s : CDPlayerState) (trackNum : ℕ) : CDPlayerState × List CDEffect :=
  ({ s with pendingTrack := some trackNum, currentTrack := trackNum },
   [CDEffect.ipcSetChapter (trackNum - 1)])

/-- `CDPlayer._next_shuffle_track` (cd.py lines 485-494): the slot after
the current track in the shuffle order, if any. -/
def nextShuffleTrack (s : CDPlayerState) : Option ℕ :=
  if s.playOrder = [] then none
  else
    match s.playOrder.indexOf? s.currentTrack with
    | some i => s.playOrder.get? (i + 1)
    | none => none

/-- `CDPlayer._rebuild_play_order` (cd.py lines 578-584) with the output
of `random.shuffle` supplied as `shuffled`: move the current track to the
front when it is in the order. -/
def rebuildPlayOrder (s : CDPlayerState) (shuffled : List ℕ) : List ℕ :=
  if s.currentTrack ∈ shuffled then
    s.currentTrack :: shuffled.erase s.currentTrack
  else shuffled

/-- `CDPlayer._handle_track_change` (cd.py lines 441-477), with the
random permutation a repeat-rebuild would draw passed in as `shuffled`.
An empty rebuilt order would raise `IndexError` in Python; that
(unreachable for a non-empty disc) corner returns the state unchanged. -/
def handleTrackChange (s : CDPlayerState) (pos : ℕ) (shuffled : List ℕ) :
    CDPlayerState × List CDEffect :=
  let newTrack := pos + 1
  if newTrack = s.currentTrack then (s, [])
  else
    match s.pendingTrack with
    | some pt =>
        if newTrack = pt then
          ({ s with pendingTrack := none, currentTrack := newTrack },
           [CDEffect.trackChangeCb])
        else (s, [])
    | none =>
        if s.shuffle ∧ ¬ (s.playOrder = []) then
          match nextShuffleTrack s with
          | some nxt => seekTrack s nxt
          | none =>
              if s.repeatMode then
                let order := rebuildPlayOrder s shuffled
                match order.head? with
                | some first => seekTrack { s with playOrder := order } first
                | none => (s, [])
              else
                ({ s with state := "stopped", pendingTrack := none },
                 [CDEffect.stopMpv, CDEffect.discEndCb])
        else
          ({ s with currentTrack := newTrack }, [CDEffect.trackChangeCb])

/-! ## Transport (transport.py) -/

/-- What `Transport.send_event` observes of one channel's coroutine: a
normal boolean return, or an exception that `asyncio.gather` captures
because of `return_exceptions=True`. -/
inductive ChannelOutcome where
  | ok (b : Bool)
  | exn (msg : String)
  deriving DecidableEq, Repr

/-- The observable result of one `send_event` call: which channel
coroutines were launched (in task-list order) and which captured
exceptions were logged. -/
structure SendReport where
  attempted : List String
  loggedErrors : List String
  deriving DecidableEq, Repr

/-- The error messages `send_event`'s result loop logs for a list of
gathered outcomes (transport.py lines 143-146). -/
def loggedOf : List ChannelOutcome → List String
  | [] => []
  | .ok _ :: rest => loggedOf rest
  | .exn m :: rest => m :: loggedOf rest

/-- `Transport.send_event` (transport.py lines 131-146): build the task
list from the mode (`webhook` ∈ {webhook, both}, `mqtt` ∈ {mqtt, both}),
gather all tasks with `return_exceptions=True`, and log every captured
exception.  The function can only fail by raising, which the gather
prevents; the `Except` wrapper records that no error escapes. -/
def sendEvent (mode : String) (webhookOut mqttOut : ChannelOutcome) :
    Except String SendReport :=
  let tasks : List (String × ChannelOutcome) :=
    (if mode = "webhook" ∨ mode = "both" then [("webhook", webhookOut)] else []) ++
    (if mode = "mqtt" ∨ mode = "both" then [("mqtt", mqttOut)] else [])
  let results := tasks.map (·.2)
  .ok { attempted := tasks.map (·.1), loggedErrors := loggedOf results }

/-! ## Concrete fixtures used by the counterexamples and witnesses -/

/-- A router registry with no sources and no active source. -/
def emptyRegistry : Registry := { sources := [], activeId := none }

/-- The number of sources whose recorded state is `playing` or `paused`. -/
def countPlayingPaused (reg : Registry) : ℕ :=
  (reg.sources.filter
    (fun kv => kv.2.state = "playing" ∨ kv.2.state = "paused")).length

/-- Registration payload of the CD source (ports per router.py). -/
def cdRegFields : RegFields :=
  { name := some "CD", command_url := some "http://localhost:8769/command",
    handles := some ["play", "next"], player := some "local" }

/-- Registration payload of the Spotify source. -/
def spotifyRegFields : RegFields :=
  { name := some "Spotify", command_url := some "http://localhost:8771/command",
    handles := some ["play"], player := some "remote" }

/-- Registry after `POST /router/source {id:"cd", state:"playing", ...}`
on an empty registry. -/
def regAfterCdPlaying : Registry :=
  (registryUpdate [] true emptyRegistry "cd" "playing" cdRegFields).registry

/-- Registry after Spotify additionally registers as playing while CD is
the active playing source. -/
def regAfterTakeover : Registry :=
  (registryUpdate [] true regAfterCdPlaying "spotify" "playing" spotifyRegFields).registry

/-- The CD source record as stored by the registration in
`regAfterCdPlaying`. -/
def cdPlayingSource : Source :=
  { id := "cd", name := "CD", command_url := "http://localhost:8769/command",
    handles := ["play", "next"], menu_preset := "cd", player := "local",
    state := "playing", from_config := false, initial_hidden := false }

/-- A router whose configured volume adapter is the Sonos one (which has
no `is_on_cached` method). -/
def sonosRouter : RouterState :=
  { registry := emptyRegistry, volume := 40, balance := 0, volumeStep := 3,
    adapter := { kind := .sonos } }

/-- The same router with the default BeoLab 5 adapter. -/
def beolabRouter : RouterState :=
  { sonosRouter with adapter := { kind := .beolab5 } }

/-- `{action:"volup", device_type:"Audio"}`. -/
def volupPayload : Payload := { action := "volup", deviceType := "Audio" }

/-- One remote volume-up press followed by the debounce window passing:
route the event through the router, feed every scheduled
`adapter.set_volume` into the BeoLab 5 debounce state, then let the
single live timer elapse.  Returns the new router state, the new adapter
state, and the device writes performed. -/
def volupOnce (rs : RouterState) (bs : BeoState) :
    RouterState × BeoState × List ℤ :=
  match routeEvent rs volupPayload with
  | .ok (rs2, effs) =>
      let bs1 := effs.foldl
        (fun b e =>
          match e with
          | Effect.adapterSetVolume v => beoSetVolume b v
          | _ => b) bs
      match bs1.timerGen with
      | some g =>
          let (bs2, w) := beoStep bs1 (BeoEvent.elapse g)
          (rs2, bs2, w)
      | none => (rs2, bs1, [])
  | .error _ => (rs, bs, [])

/-- Router configured as in spec scenario S3: `volume.step=3` and current
volume 68, BeoLab 5 adapter. -/
def rs68 : RouterState :=
  { registry := emptyRegistry, volume := 68, balance := 0, volumeStep := 3,
    adapter := { kind := .beolab5 } }

/-- Fresh BeoLab 5 adapter state with `volume.max = 70`. -/
def beo70 : BeoState := { maxVolume := 70 }

/-- A menu config declaring a hidden CD source entry between two static
views, as the default installation does. -/
def cdMenuCfg : List (String × MenuCfgValue) :=
  [("PLAYING", .str "playing"),
   ("CD", .obj (some "cd") true none),
   ("SYSTEM", .str "system")]

/-- The parsed menu order for `cdMenuCfg`. -/
def cdMenuOrder : List MenuEntry := (parseMenu cdMenuCfg).1

/-- The pre-created registry for `cdMenuCfg`. -/
def cdMenuReg : Registry := (parseMenu cdMenuCfg).2

/-- A menu config declaring a visible (non-hidden) demo source entry. -/
def demoMenuCfg : List (String × MenuCfgValue) :=
  [("PLAYING", .str "playing"),
   ("DEMO", .obj (some "demo") false none)]

/-- The parsed menu order for `demoMenuCfg`. -/
def demoMenuOrder : List MenuEntry := (parseMenu demoMenuCfg).1

/-- The pre-created registry for `demoMenuCfg`. -/
def demoMenuReg : Registry := (parseMenu demoMenuCfg).2

/-- The ids of menu entries that are parsed as config sources (neither
webpage nor static view) — exactly the entries `_parse_menu` pre-creates
with `from_config = true`. -/
def sourceEntryIds : List MenuEntry → List String
  | [] => []
  | e :: rest =>
      if e.url = none ∧ e.id ∉ staticViews then e.id :: sourceEntryIds rest
      else sourceEntryIds rest

/-- CD playback engine state right after the disc started on track 1. -/
def cdSeekStart : CDPlayerState :=
  { currentTrack := 1, totalTracks := 10, state := "playing" }

/-- Fresh BeoLab 5 debounce state with the given cap. -/
def beoFresh (maxV : ℤ) : BeoState := { maxVolume := maxV }

/-- Two `set_volume` calls inside one debounce window: the second call
cancels the first timer (generation 0), so when both scheduled due times
pass only the second timer (generation 1) flushes. -/
def debounceScenario (maxV v v' : ℤ) : BeoState × List ℤ :=
  beoRun (beoFresh maxV)
    [BeoEvent.set v, BeoEvent.set v', BeoEvent.elapse 0, BeoEvent.elapse 1]

/-- A registry stores every source under its own id (`_sources[id] = source`
with `source.id = id` throughout router.py); checked per key. -/
def keyConsistentB (reg : Registry) (k : String) : Bool :=
  match reg.find k with
  | some t => t.id = k
  | none => true

/-- A router whose registry holds the CD source as active and playing. -/
def cdActiveRouter : RouterState :=
  { registry := { sources := [("cd", cdPlayingSource)], activeId := some "cd" },
    volume := 40, balance := 0, volumeStep := 3,
    adapter := { kind := .beolab5 } }

/-- `{action:"next", device_type:"Audio"}` as in spec scenario S1. -/
def nextPayload : Payload := { action := "next", deviceType := "Audio" }

/-- The registry record `_parse_menu` pre-creates for the visible `demo`
config entry of `demoMenuCfg`. -/
def demoConfigSource : Source :=
  { id := "demo", name := "DEMO", command_url := "",
    handles := ["play", "pause", "next", "prev", "stop", "go"],
    menu_preset := "demo", player := "local", state := "gone",
    from_config := true, initial_hidden := false }

/-- A registration payload carrying a `handles` list that differs from the
stored one. -/
def c10Fields : RegFields := { handles := some ["bogus"] }

/-! ## Helper lemmas about the registry data structures -/

theorem find_setSource_self (l : List (String × Source)) (id : String) (v : Source) :
    ((setSource l id v).find? (fun kv => kv.1 = id)).map (·.2) = some v := by
  induction l with
  | nil => simp [setSource]
  | cons kv rest ih =>
    by_cases h : kv.1 = id
    · simp [setSource, h]
    · simp [setSource, h, ih]

theorem find?_setSource_ne (l : List (String × Source)) (id k : String) (v : Source)
    (h : ¬ k = id) :
    (setSource l id v).find? (fun kv => kv.1 = k) = l.find? (fun kv => kv.1 = k) := by
  have hid : ¬ id = k := fun he => h he.symm
  induction l with
  | nil => simp [setSource, List.find?, hid]
  | cons kv rest ih =>
    by_cases h2 : kv.1 = id
    · have h3 : ¬ kv.1 = k := fun he => h (he.symm.trans h2)
      simp [setSource, h2, List.find?, h3, hid]
    · simp [setSource, h2, List.find?, ih]

theorem setSource_idem (l : List (String × Source)) (id : String) (v w : Source) :
    setSource (setSource l id v) id w = setSource l id w := by
  induction l with
  | nil => simp [setSource]
  | cons kv rest ih =>
    by_cases h : kv.1 = id
    · simp [setSource, h]
    · simp [setSource, h, ih]

theorem applyFields_handles_ne_nil (s : Source) (f : RegFields)
    (h : ¬ s.handles = []) :
    (applyFields s f).handles = s.handles := by
  rcases f with ⟨n, u, m, p, hs, nav, ap⟩
  cases n <;> cases u <;> cases m <;> cases p <;> cases hs <;>
    simp [applyFields, List.isEmpty_iff, h]

theorem applyFields_idem (s : Source) (f : RegFields) :
    applyFields (applyFields s f) f = applyFields s f := by
  rcases f with ⟨n, u, m, p, hs, nav, ap⟩
  cases n <;> cases u <;> cases m <;> cases p <;> cases hs <;>
    simp [applyFields] <;> split <;> simp_all [List.isEmpty_iff]

theorem applyFields_setState (s : Source) (f : RegFields) (x : String) :
    applyFields { s with state := x } f = { applyFields s f with state := x } := by
  rcases f with ⟨n, u, m, p, hs, nav, ap⟩
  cases n <;> cases u <;> cases m <;> cases p <;> cases hs <;>
    simp [applyFields] <;> split <;> simp_all

theorem source_setState_self (s : Source) (x : String) (h : s.state = x) :
    ({ s with state := x } : Source) = s := by
  cases s
  simp_all

theorem optNonempty_some (p : String) (h : ¬ p = "") :
    optNonempty (some p) = some p := by
  unfold optNonempty
  split <;> simp_all

theorem find_eq (reg : Registry) (k : String) :
    reg.find k = (reg.sources.find? (fun kv => kv.1 = k)).map (·.2) := rfl

theorem find_mk (l : List (String × Source)) (a : Option String) (k : String) :
    Registry.find { sources := l, activeId := a } k =
      (l.find? (fun kv => kv.1 = k)).map (·.2) := rfl

theorem find_mk_setSource (l : List (String × Source)) (a : Option String)
    (id : String) (v : Source) :
    Registry.find { sources := setSource l id v, activeId := a } id = some v := by
  simp [Registry.find, find_setSource_self]

theorem Registry.eq_of (a b : Registry) (h1 : a.sources = b.sources)
    (h2 : a.activeId = b.activeId) : a = b := by
  cases a; cases b; simp_all

/-! ## Characterizations of `SourceRegistry.update` -/

/-- Whatever the transition, `update` stores the field-updated source with
the new state under its id; nothing else in the dict changes. -/
theorem registryUpdate_sources (menuOrder : List MenuEntry) (von : Bool)
    (reg : Registry) (id st : String) (f : RegFields) :
    (registryUpdate menuOrder von reg id st f).registry.sources =
      setSource reg.sources id
        { applyFields (match reg.find id with
            | some s => s
            | none => Source.mk0 id (f.handles.getD [])) f with state := st } := rfl

theorem find_registryUpdate_self (menuOrder : List MenuEntry) (von : Bool)
    (reg : Registry) (id st : String) (f : RegFields) :
    (registryUpdate menuOrder von reg id st f).registry.find id =
      some { applyFields (match reg.find id with
          | some s => s
          | none => Source.mk0 id (f.handles.getD [])) f with state := st } := by
  show (((registryUpdate menuOrder von reg id st f).registry.sources).find?
      (fun kv => kv.1 = id)).map (·.2) = _
  rw [registryUpdate_sources]
  exact find_setSource_self _ _ _

/-- The active slot after an `available` registration: kept on a first
appearance, cleared when the registering source held it, kept otherwise. -/
theorem registryUpdate_available_activeId (menuOrder : List MenuEntry) (von : Bool)
    (reg : Registry) (id : String) (f : RegFields) :
    (registryUpdate menuOrder von reg id "available" f).registry.activeId =
      (match reg.find id with
       | none => reg.activeId
       | some s =>
           if s.state = "gone" then reg.activeId
           else if reg.activeId = some id then none else reg.activeId) := by
  cases hfind : reg.find id with
  | none =>
      simp only [registryUpdate, hfind]
      simp [apply_ite Prod.fst]
  | some s =>
      by_cases hg : s.state = "gone"
      · simp only [registryUpdate, hfind]
        simp [hg, apply_ite Prod.fst]
      · by_cases ha : reg.activeId = some id
        · simp only [registryUpdate, hfind]
          simp [hg, ha]
        · simp only [registryUpdate, hfind]
          simp [hg, ha]

/-- A repeat `available` registration of a known, not-gone, not-active
source broadcasts nothing except an optional navigate. -/
theorem registryUpdate_available_effects (menuOrder : List MenuEntry) (von : Bool)
    (reg : Registry) (id : String) (f : RegFields) (s : Source)
    (hfind : reg.find id = some s) (hg : ¬ s.state = "gone")
    (ha : ¬ reg.activeId = some id) :
    (registryUpdate menuOrder von reg id "available" f).effects =
      (if f.navigate then [Effect.navigateTo ("menu/" ++ id)] else []) := by
  simp only [registryUpdate, hfind]
  simp [hg, ha, apply_ite Prod.snd]

/-- An `available` registration that stores back exactly the record the
registry already holds leaves everything but that store untouched. -/
theorem registryUpdate_available_stable (menuOrder : List MenuEntry) (von : Bool)
    (R : Registry) (id : String) (f : RegFields) (t : Source)
    (hfind : R.find id = some t)
    (hstate : t.state = "available")
    (happ : applyFields t f = t)
    (hact : ¬ (R.activeId = some id)) :
    (registryUpdate menuOrder von R id "available" f).registry =
      { sources := setSource R.sources id t, activeId := R.activeId } ∧
    (registryUpdate menuOrder von R id "available" f).effects =
      (if f.navigate then [Effect.navigateTo ("menu/" ++ id)] else []) := by
  constructor
  · apply Registry.eq_of
    · rw [registryUpdate_sources]
      simp only [hfind]
      rw [happ]
      rw [source_setState_self t "available" hstate]
    · rw [registryUpdate_available_activeId]
      simp only [hfind]
      simp [hstate, hact]
  · exact registryUpdate_available_effects _ _ _ _ _ t hfind (by simp [hstate]) hact

/-! ## Characterizations of `get_menu` -/

theorem keyConsistentB_some (reg : Registry) (k : String) (t : Source)
    (hfind : reg.find k = some t) (h : keyConsistentB reg k = true) :
    t.id = k := by
  unfold keyConsistentB at h
  rw [hfind] at h
  simpa using h

/-- A gone source's id occurs among the rendered menu item ids exactly
when the config order has a source entry with that id. -/
theorem menu_mem_iff (reg : Registry) (sid : String) (s : Source)
    (hfind : reg.find sid = some s) (hid : s.id = sid)
    (hnostatic : sid ∉ staticViews) :
    ∀ order : List MenuEntry,
      (∀ e ∈ order, keyConsistentB reg e.id = true) →
      (∀ e ∈ order, e.id = sid → e.url = none) →
      (sid ∈ (getMenuItems order reg).map (·.id) ↔ sid ∈ sourceEntryIds order) := by
  intro order
  induction order with
  | nil => intro _ _; simp [getMenuItems, sourceEntryIds]
  | cons e rest ih =>
    intro hkeys hnourl
    have hrest := ih (fun e' he' => hkeys e' (List.mem_cons_of_mem _ he'))
      (fun e' he' => hnourl e' (List.mem_cons_of_mem _ he'))
    cases hurl : e.url with
    | some u =>
        have hne : ¬ e.id = sid := by
          intro h
          have h2 := hnourl e (List.mem_cons_self _ _) h
          rw [hurl] at h2
          exact Option.noConfusion h2
        have hne' : ¬ sid = e.id := fun h => hne h.symm
        simp [getMenuItems, sourceEntryIds, hurl, hne', hrest]
    | none =>
        by_cases hstat : e.id ∈ staticViews
        · have hne : ¬ e.id = sid := fun h => hnostatic (h ▸ hstat)
          have hne' : ¬ sid = e.id := fun h => hne h.symm
          simp [getMenuItems, sourceEntryIds, hurl, hstat, hne', hrest]
        · by_cases heq : e.id = sid
          · have hfe : reg.find e.id = some s := by rw [heq]; exact hfind
            simp [getMenuItems, sourceEntryIds, hurl, heq, hnostatic, hfind, hid, hrest]
          · have heq' : ¬ sid = e.id := fun h => heq h.symm
            cases hfe : reg.find e.id with
            | none =>
                simp [getMenuItems, sourceEntryIds, hurl, hstat, hfe, heq', hrest]
            | some t =>
                have ht : t.id = e.id :=
                  keyConsistentB_some reg e.id t hfe (hkeys e (List.mem_cons_self _ _))
                have hne2 : ¬ sid = t.id := by
                  rw [ht]
                  exact heq'
                simp [getMenuItems, sourceEntryIds, hurl, hstat, hfe, hne2, heq', hrest]

/-- Every rendered menu item carrying a hidden gone config source's id has
its `hidden` flag set. -/
theorem menu_hidden_flag (reg : Registry) (sid : String) (s : Source)
    (hfind : reg.find sid = some s)
    (hnostatic : sid ∉ staticViews)
    (hgone : s.state = "gone") (hinit : s.initial_hidden = true) :
    ∀ order : List MenuEntry,
      (∀ e ∈ order, keyConsistentB reg e.id = true) →
      (∀ e ∈ order, e.id = sid → e.url = none) →
      ∀ item ∈ getMenuItems order reg, item.id = sid → item.hidden = true := by
  intro order
  induction order with
  | nil => intro _ _ item hmem; simp [getMenuItems] at hmem
  | cons e rest ih =>
    intro hkeys hnourl item hmem hiid
    have hrest := ih (fun e' he' => hkeys e' (List.mem_cons_of_mem _ he'))
      (fun e' he' => hnourl e' (List.mem_cons_of_mem _ he'))
    cases hurl : e.url with
    | some u =>
        rw [getMenuItems, hurl] at hmem
        rcases List.mem_cons.mp hmem with h | h
        · exfalso
          have h2 := hnourl e (List.mem_cons_self _ _) (by rw [← hiid, h])
          rw [hurl] at h2
          exact Option.noConfusion h2
        · exact hrest item h hiid
    | none =>
        by_cases hstat : e.id ∈ staticViews
        · rw [getMenuItems, hurl, if_pos hstat] at hmem
          rcases List.mem_cons.mp hmem with h | h
          · exfalso
            apply hnostatic
            rw [← hiid, h]
            exact hstat
          · exact hrest item h hiid
        · cases hfe : reg.find e.id with
          | none =>
              rw [getMenuItems, hurl, if_neg hstat, hfe] at hmem
              exact hrest item hmem hiid
          | some t =>
              rw [getMenuItems, hurl, if_neg hstat, hfe] at hmem
              rcases List.mem_cons.mp hmem with h | h
              · have ht : t.id = e.id :=
                  keyConsistentB_some reg e.id t hfe (hkeys e (List.mem_cons_self _ _))
                have heid : e.id = sid := by rw [← ht, ← hiid, h]
                have hts : t = s := by
                  rw [heid] at hfe
                  rw [hfe] at hfind
                  exact Option.some.inj hfind
                subst hts
                rw [h]
                simp [hgone, hinit]
              · exact hrest item h hiid

/-! ## The claims -/

/-- C1 counterexample.  The claim says at most one registered source ever
has state in `{playing, paused}`.  On the code, after `cd` registers as
playing and then `spotify` registers as playing, `SourceRegistry.update`
forwards a stop command to `cd` but never changes `cd`'s recorded state,
so two sources simultaneously record state `playing`. -/
theorem C1_counterexample :
    countPlayingPaused regAfterTakeover = 2 ∧
    ¬ (countPlayingPaused regAfterTakeover ≤ 1) := by decide

/-- C1 (amended).  The registry enforces exclusivity of the *active slot*
only: when a second source `q` registers as playing while `p` is the
active playing/paused source with a command url, `q` takes the single
active slot, a `{action:"stop"}` POST is sent to `p`'s command url, and
`p`'s registry record — its recorded state included — stays exactly as it
was until `p` itself re-registers. -/
theorem C1_amended (menuOrder : List MenuEntry) (von : Bool) (reg : Registry)
    (p q : String) (sp : Source) (f : RegFields)
    (hact : reg.activeId = some p) (hfind : reg.find p = some sp)
    (hst : sp.state = "playing" ∨ sp.state = "paused")
    (hurl : ¬ (sp.command_url = ""))
    (hpq : ¬ (p = q)) (hp : ¬ (p = "")) :
    (registryUpdate menuOrder von reg q "playing" f).registry.activeId = some q ∧
    (registryUpdate menuOrder von reg q "playing" f).registry.find p = some sp ∧
    Effect.forwardPost sp.command_url stopPayload ∈
      (registryUpdate menuOrder von reg q "playing" f).effects := by
  have hne : ¬ (reg.activeId = some q) := by
    rw [hact]
    simp
    exact hpq
  simp only [registryUpdate, hact, hne, optNonempty_some p hp, hfind]
  refine ⟨by simp [hpq], ?_, ?_⟩
  · rw [find_mk, find?_setSource_ne reg.sources q p _ hpq]
    exact hfind
  · simp [forwardToSource, hurl, hst, hpq]

/-- C1 witness: the amended statement at the concrete cd → spotify
takeover. -/
theorem C1_amended_witness :
    (registryUpdate [] true regAfterCdPlaying "spotify" "playing"
        spotifyRegFields).registry.activeId = some "spotify" ∧
    (registryUpdate [] true regAfterCdPlaying "spotify" "playing"
        spotifyRegFields).registry.find "cd" = some cdPlayingSource ∧
    Effect.forwardPost cdPlayingSource.command_url stopPayload ∈
      (registryUpdate [] true regAfterCdPlaying "spotify" "playing"
        spotifyRegFields).effects :=
  C1_amended [] true regAfterCdPlaying "cd" "spotify" cdPlayingSource spotifyRegFields
    (by decide) (by decide) (by decide) (by decide) (by decide) (by decide)

/-- C2.  For an Audio event whose action is in the active playing/paused
source's handles, `route_event` posts the raw payload to that source's
command url and stops: the result is exactly that one forward effect — no
transport send — and the router state (its `volume` field included) is
unchanged. -/
theorem C2_active_source_forwarding (st : RouterState) (p : Payload) (a : Source)
    (hA : st.registry.activeSource = some a)
    (hd : p.deviceType = "Audio")
    (hs : a.state = "playing" ∨ a.state = "paused")
    (hh : p.action ∈ a.handles)
    (hu : ¬ (a.command_url = "")) :
    routeEvent st p = .ok (st, [Effect.forwardPost a.command_url p]) := by
  simp [routeEvent, hA, hd, hs, hh, forwardToSource, hu]

/-- C2 witness: scenario S1, `{action:"next"}` with cd active playing. -/
theorem C2_witness :
    routeEvent cdActiveRouter nextPayload =
      .ok (cdActiveRouter, [Effect.forwardPost cdPlayingSource.command_url nextPayload]) :=
  C2_active_source_forwarding cdActiveRouter nextPayload cdPlayingSource
    (by decide) (by decide) (by decide) (by decide) (by decide)

/-- C3.  The claim says `POST /router/event` always answers
`{status:"ok"}` regardless of the configured volume adapter.  On the
code, `route_event` calls `self._volume.is_on_cached()` for `volup`
Audio events, a method only `BeoLab5Volume` defines, so with the Sonos
adapter the handler raises `AttributeError` (HTTP 500); with the BeoLab 5
adapter the same event succeeds. -/
theorem C3_adapter_crash :
    handleEvent sonosRouter volupPayload =
      .error "AttributeError: volume adapter has no attribute is_on_cached" ∧
    exceptIsOk (handleEvent beolabRouter volupPayload) = true := by decide

/-- C4 counterexample.  With `volume.step=3`, `volume.max=70` and current
volume 68, one volup leaves `/router/status.volume` at 71, not 70 as the
claim states: the router clamps to `[0, 100]` and only the adapter write
is capped to the configured max. -/
theorem C4_counterexample :
    (volupOnce rs68 beo70).1.volume = 71 ∧
    ¬ ((volupOnce rs68 beo70).1.volume = 70) := by decide

/-- C4 (amended).  With `volume.step=3`, `volume.max=70` and volume 68:
the first volup makes `/router/status` report 71 (clamped to `[0,100]`,
not to `volume.max`) while the debounced adapter write is capped to 70;
the second volup makes status report 74 and causes one more adapter
write, again of the capped value 70. -/
theorem C4_amended :
    (volupOnce rs68 beo70).1.volume = 71 ∧
    (volupOnce rs68 beo70).2.2 = [70] ∧
    (volupOnce (volupOnce rs68 beo70).1 (volupOnce rs68 beo70).2.1).1.volume = 74 ∧
    (volupOnce (volupOnce rs68 beo70).1 (volupOnce rs68 beo70).2.1).2.2 = [70] := by
  decide

/-- C5 counterexample.  The claim says a gone source appears in
`/router/menu.items` iff it is `from_config` and not `initial_hidden`.
On the code, the hidden config CD source in state `gone` *does* appear
among the items (flagged `hidden:true`), refuting the iff. -/
theorem C5_counterexample :
    (cdMenuReg.find "cd").map (·.from_config) = some true ∧
    (cdMenuReg.find "cd").map (·.initial_hidden) = some true ∧
    (cdMenuReg.find "cd").map (·.state) = some "gone" ∧
    ¬ (("cd" ∈ menuItemIds (getMenu cdMenuOrder cdMenuReg)) ↔
       ((cdMenuReg.find "cd").map (·.from_config) = some true ∧
        (cdMenuReg.find "cd").map (·.initial_hidden) = some false)) := by decide

/-- C5 (amended).  For a source whose latest registration is `gone`, its
id appears among the `GET /router/menu` items iff the source is
`from_config` (its id has a source entry in the config menu order),
regardless of `initial_hidden`; when it is `initial_hidden`, every item
carrying its id is flagged `hidden:true` instead of being omitted. -/
theorem C5_amended (order : List MenuEntry) (reg : Registry) (sid : String)
    (s : Source)
    (hfind : reg.find sid = some s) (hid : s.id = sid)
    (hgone : s.state = "gone")
    (hnostatic : sid ∉ staticViews)
    (hkeys : ∀ e ∈ order, keyConsistentB reg e.id = true)
    (hnourl : ∀ e ∈ order, e.id = sid → e.url = none)
    (hcoh : s.from_config = true ↔ sid ∈ sourceEntryIds order) :
    (sid ∈ menuItemIds (getMenu order reg) ↔ s.from_config = true) ∧
    (s.initial_hidden = true →
      ∀ item ∈ (getMenu order reg).items, item.id = sid → item.hidden = true) := by
  constructor
  · rw [hcoh]
    exact menu_mem_iff reg sid s hfind hid hnostatic order hkeys hnourl
  · intro hinit
    exact menu_hidden_flag reg sid s hfind hnostatic hgone hinit order hkeys hnourl

/-- C5 witness: the amended statement at the visible `demo` config entry,
whose gone source appears on the menu. -/
theorem C5_amended_witness :
    ("demo" ∈ menuItemIds (getMenu demoMenuOrder demoMenuReg) ↔
      demoConfigSource.from_config = true) ∧
    (demoConfigSource.initial_hidden = true →
      ∀ item ∈ (getMenu demoMenuOrder demoMenuReg).items, item.id = "demo" →
        item.hidden = true) :=
  C5_amended demoMenuOrder demoMenuReg "demo" demoConfigSource
    (by decide) (by decide) (by decide) (by decide) (by decide) (by decide) (by decide)

/-- C6.  The claim says that while a seek is in flight only the matching
chapter event clears `pending_track`, updating `current_track` and firing
the track-change callback.  On the code, `_seek_track` also eagerly sets
`current_track`, so the matching chapter event (seek to 3, mpv reports
chapter 2 = track 3) is swallowed by the duplicate-track guard: the state
is returned unchanged, `pending_track` stays set and no callback fires —
and every later chapter event (here the natural advance to track 4) keeps
being ignored until a stop or relaunch. -/
theorem C6_seek_confirmation_dead :
    (seekTrack cdSeekStart 3).1.pendingTrack = some 3 ∧
    (seekTrack cdSeekStart 3).1.currentTrack = 3 ∧
    (seekTrack cdSeekStart 3).2 = [CDEffect.ipcSetChapter 2] ∧
    handleTrackChange (seekTrack cdSeekStart 3).1 2 [] =
      ((seekTrack cdSeekStart 3).1, []) ∧
    (handleTrackChange (handleTrackChange (seekTrack cdSeekStart 3).1 2 []).1
        3 []).2 = [] ∧
    (handleTrackChange (handleTrackChange (seekTrack cdSeekStart 3).1 2 []).1
        3 []).1.pendingTrack = some 3 := by decide

/-- C7 counterexample.  The claim says two `set_volume` calls inside one
debounce window cause exactly one device write *of the second value*.
With `max_volume = 70`, `set_volume(10); set_volume(80)` performs one
write of the capped value 70, not 80. -/
theorem C7_counterexample :
    (debounceScenario 70 10 80).2 = [70] ∧
    ¬ ((debounceScenario 70 10 80).2 = [80]) := by decide

/-- C7 (amended).  For all volumes `v`, `v'` and every configured cap:
`set_volume(v); set_volume(v')` inside one debounce window causes exactly
one device write, and the written value is `min(v', max_volume)` — equal
to `v'` whenever `v'` does not exceed the cap. -/
theorem C7_amended (maxV v v' : ℤ) :
    (debounceScenario maxV v v').2 = [pyMin v' maxV] := by
  simp [debounceScenario, beoRun, beoStep, beoSetVolume, beoFlush, beoFresh]

/-- C8.  Registering the same source as `available` twice in succession is
idempotent: the second registration leaves the registry (records and
active slot) exactly as after the first one and broadcasts no duplicate
`menu_item` add or show.  The hypothesis states the registry's standing
invariant that an id in the active slot has a non-gone record. -/
theorem C8_available_idempotent (menuOrder : List MenuEntry) (von : Bool)
    (reg : Registry) (id : String) (f : RegFields)
    (hact : reg.activeId = some id →
      ∃ s, reg.find id = some s ∧ ¬ (s.state = "gone")) :
    ((registryUpdate menuOrder von
        (registryUpdate menuOrder von reg id "available" f).registry id
        "available" f).registry =
      (registryUpdate menuOrder von reg id "available" f).registry) ∧
    (∀ pr af, Effect.menuItemAdd pr af ∉
      (registryUpdate menuOrder von
        (registryUpdate menuOrder von reg id "available" f).registry id
        "available" f).effects) ∧
    (∀ pr pa, Effect.menuItemShow pr pa ∉
      (registryUpdate menuOrder von
        (registryUpdate menuOrder von reg id "available" f).registry id
        "available" f).effects) := by
  have ha1 : ¬ ((registryUpdate menuOrder von reg id "available" f).registry.activeId
      = some id) := by
    rw [registryUpdate_available_activeId]
    cases hfind : reg.find id with
    | none =>
        intro hcon
        obtain ⟨s, hfs, _⟩ := hact hcon
        rw [hfind] at hfs
        exact Option.noConfusion hfs
    | some s =>
        by_cases hg : s.state = "gone"
        · simp only [hg, if_true]
          intro hcon
          obtain ⟨s', hfs, hgs⟩ := hact hcon
          rw [hfind] at hfs
          exact hgs (Option.some.inj hfs ▸ hg)
        · by_cases ha : reg.activeId = some id
          · simp [hg, ha]
          · simp [hg, ha]
  have hfind1 := find_registryUpdate_self menuOrder von reg id "available" f
  have happ1 : applyFields ({ applyFields (match reg.find id with
        | some s => s
        | none => Source.mk0 id (f.handles.getD [])) f with state := "available" }) f =
      { applyFields (match reg.find id with
        | some s => s
        | none => Source.mk0 id (f.handles.getD [])) f with state := "available" } := by
    rw [applyFields_setState, applyFields_idem]
  obtain ⟨hreg2, heff2⟩ :=
    registryUpdate_available_stable menuOrder von _ id f _ hfind1 rfl happ1 ha1
  refine ⟨?_, ?_, ?_⟩
  · rw [hreg2]
    apply Registry.eq_of
    · rw [registryUpdate_sources, setSource_idem]
    · rfl
  · intro pr af
    rw [heff2]
    split <;> simp
  · intro pr pa
    rw [heff2]
    split <;> simp

/-- C8 witness: the idempotence statement at a concrete double `available`
registration of the spotify source on an empty registry. -/
theorem C8_witness :
    ((registryUpdate [] true
        (registryUpdate [] true emptyRegistry "spotify" "available"
          spotifyRegFields).registry "spotify" "available" spotifyRegFields).registry =
      (registryUpdate [] true emptyRegistry "spotify" "available"
        spotifyRegFields).registry) ∧
    (∀ pr af, Effect.menuItemAdd pr af ∉
      (registryUpdate [] true
        (registryUpdate [] true emptyRegistry "spotify" "available"
          spotifyRegFields).registry "spotify" "available" spotifyRegFields).effects) ∧
    (∀ pr pa, Effect.menuItemShow pr pa ∉
      (registryUpdate [] true
        (registryUpdate [] true emptyRegistry "spotify" "available"
          spotifyRegFields).registry "spotify" "available" spotifyRegFields).effects) :=
  C8_available_idempotent [] true emptyRegistry "spotify" spotifyRegFields
    (fun h => absurd h (by decide))

/-- C9.  In transport mode `both`, `send_event` launches the webhook and
bus sends together — both channels are attempted whatever either
outcome — returns normally (captured exceptions never propagate, thanks
to `gather(..., return_exceptions=True)`), and logs every captured
exception. -/
theorem C9_both_mode (wOut mOut : ChannelOutcome) :
    ∃ rep, sendEvent "both" wOut mOut = Except.ok rep ∧
      rep.attempted = ["webhook", "mqtt"] ∧
      rep.loggedErrors = loggedOf [wOut, mOut] :=
  ⟨{ attempted := ["webhook", "mqtt"], loggedErrors := loggedOf [wOut, mOut] },
    by simp [sendEvent], rfl, rfl⟩

/-- C10.  A registration never overwrites a non-empty handles set: for any
source whose stored handles are non-empty (in particular every config
source with default handles), any `POST /router/source` payload leaves
its handles unchanged. -/
theorem C10_handles_preserved (menuOrder : List MenuEntry) (von : Bool)
    (reg : Registry) (id st : String) (f : RegFields) (s : Source)
    (hfind : reg.find id = some s) (hne : ¬ s.handles = []) :
    ((registryUpdate menuOrder von reg id st f).registry.find id).map (·.handles) =
      some s.handles := by
  simp only [registryUpdate, hfind]
  rw [find_mk_setSource]
  simp [applyFields_handles_ne_nil s f hne]

/-- C10 witness: a re-registration of the playing cd source with a
different handles payload leaves the stored handles unchanged. -/
theorem C10_witness :
    ((registryUpdate [] true regAfterCdPlaying "cd" "available"
        c10Fields).registry.find "cd").map (·.handles) =
      some cdPlayingSource.handles :=
  C10_handles_preserved [] true regAfterCdPlaying "cd" "available" c10Fields
    cdPlayingSource (by decide) (by decide)

end Beo
